import Mathlib

/-!
Verification of the operation-tracker service (Go, package `operationtracker`).

The embedding below translates `pkg/tracker.go`, the HTTP handler
`GetOperationStatus` from `handlers.go`, and the consumer-group read loop of
`websocket.go` into pure Lean functions over an explicit Redis state.

Modelling conventions:
- Redis keys are `String`s built exactly as the Go `fmt.Sprintf` calls build
  them (`operations:<user>:<op>`, `notifications:<user>`).
- The Redis key-value area and the per-key streams are association lists; a
  `SET` prepends a binding and lookup returns the first match, which is
  observationally the same as overwrite.
- `json.Marshal`/`json.Unmarshal` on `Operation` are inverse and never fail
  for values this program itself stores, so stream entries and stored values
  are modelled as `Operation` values directly; the marshal-error branches of
  the Go code are therefore unreachable in the model.
- `time.Now().UTC()` is passed in as an explicit `now : Nat` argument and
  `uuid.New().String()` as an explicit `operationID` argument.
- Each fallible Redis *write* call (`SET`, `XADD`, `XACK`) takes a `Bool`
  telling whether the backend call succeeds, mirroring the `if err != nil`
  branch of the source; a failed `GET` is indistinguishable in the source
  from a missing key (both produce `ErrOperationNotFound`), so reads are
  modelled as plain lookups.
-/

namespace OpTracker

/-- `Operation` from `operation.go`: the stored record. `timestamp` is
abstracted to `Nat`. -/
structure Operation where
  key : String
  status : String
  timestamp : Nat
  userID : String
  error : String
  read : Bool
  deriving DecidableEq, Repr

/-- `OperationResult` from `operation.go`: the read-only projection returned
to consumers. -/
structure OperationResult where
  key : String
  message : String
  timestamp : Nat
  read : Bool
  deriving DecidableEq, Repr

/-- The error values of `errors.go` (plus `ErrInvalidOperationStatus`
referenced by `tracker.go`), restricted to those the tracker functions can
return. -/
inductive Err where
  | operationNotFound
  | failedToMarshal
  | failedToUnmarshal
  | failedToSaveToRedis
  | failedToUpdateRedis
  | failedToRetrieveOps
  | unauthorizedAccess
  | failedToPublishUpdate
  | failedToRemoveFromList
  | invalidOperationStatus
  deriving DecidableEq, Repr

/-- First-match lookup in an association list; the model of a Redis `GET`
(respectively of reading one stream) over the bindings written so far. -/
def assocGet {α : Type} (k : String) : List (String × α) → Option α
  | [] => none
  | (k', v) :: rest => if k' = k then some v else assocGet k rest

/-- The Redis state the tracker mutates: the key-value area holding
`Operation` records and the per-key append-only streams. -/
structure Redis where
  kv : List (String × Operation)
  streams : List (String × List Operation)
  deriving DecidableEq, Repr

/-- The empty Redis state. -/
def Redis.empty : Redis := { kv := [], streams := [] }

/-- `GET key` on the key-value area. -/
def kvGet (st : Redis) (k : String) : Option Operation :=
  assocGet k st.kv

/-- `SET key value` on the key-value area (overwrite by shadowing). -/
def kvSet (st : Redis) (k : String) (v : Operation) : Redis :=
  { st with kv := (k, v) :: st.kv }

/-- The entries of stream `k`, oldest first (empty if the stream does not
exist yet, as with `XADD` auto-creation). -/
def streamGet (st : Redis) (k : String) : List Operation :=
  (assocGet k st.streams).getD []

/-- `XADD k <entry>`: append one entry at the tail of stream `k`. -/
def streamAppend (st : Redis) (k : String) (op : Operation) : Redis :=
  { st with streams := (k, streamGet st k ++ [op]) :: st.streams }

/-- `fmt.Sprintf("operations:%s:%s", userID, operationID)`. -/
def opKey (userID operationID : String) : String :=
  "operations:" ++ userID ++ ":" ++ operationID

/-- `fmt.Sprintf("operations:%s", composedOperationID)` (used by
`UpdateOperation`). -/
def opKeyComposed (composedOperationID : String) : String :=
  "operations:" ++ composedOperationID

/-- `fmt.Sprintf("notifications:%s", userID)`: the per-owner stream key. -/
def notifKey (userID : String) : String :=
  "notifications:" ++ userID

/-- `CreateOperation` (`tracker.go` 27–75): build a `Pending` record, `SET`
it under `operations:<user>:<op>`, then `XADD` its snapshot to
`notifications:<user>`. On a failed `SET` nothing is written; on a failed
`XADD` the `SET` has already happened. Returns the state together with the
operation id or the error. -/
def CreateOperation (st : Redis) (userID operationID : String) (now : Nat)
    (setOk xaddOk : Bool) : Redis × Except Err String :=
  let op : Operation :=
    { key := operationID, status := "Pending", timestamp := now
      userID := userID, error := "", read := false }
  if setOk = false then (st, .error .failedToSaveToRedis)
  else
    let st1 := kvSet st (opKey userID operationID) op
    if xaddOk = false then (st1, .error .failedToPublishUpdate)
    else (streamAppend st1 (notifKey userID) op, .ok operationID)

/-- `UpdateOperation` (`tracker.go` 77–145): `GET operations:<composed>`;
missing record is `ErrOperationNotFound`; the transition guard rejects with
`ErrInvalidOperationStatus` unless the *current* status is `Completed` or
`Failed`; otherwise the new status/error/timestamp are applied, `read` is
cleared, the record is `SET` back and its snapshot `XADD`ed to the owner's
stream. -/
def UpdateOperation (st : Redis) (composedOperationID status errorMsg : String)
    (now : Nat) (setOk xaddOk : Bool) : Redis × Option Err :=
  match kvGet st (opKeyComposed composedOperationID) with
  | none => (st, some .operationNotFound)
  | some op =>
    if op.status ≠ "Completed" ∧ op.status ≠ "Failed" then
      (st, some .invalidOperationStatus)
    else
      let op' : Operation :=
        { op with status := status, error := errorMsg, timestamp := now, read := false }
      if setOk = false then (st, some .failedToUpdateRedis)
      else
        let st1 := kvSet st (opKeyComposed composedOperationID) op'
        if xaddOk = false then (st1, some .failedToPublishUpdate)
        else (streamAppend st1 (notifKey op'.userID) op', none)

/-- The `OperationResult` projection used by `GetOperation` (`tracker.go`
171–176) and the websocket egress. -/
def toResult (op : Operation) : OperationResult :=
  { key := op.key, message := op.status, timestamp := op.timestamp, read := op.read }

/-- `GetOperation` (`tracker.go` 147–179): `GET operations:<user>:<op>`;
missing is `ErrOperationNotFound`; a stored owner different from the caller
is `ErrUnauthorizedAccess`; otherwise the projected result. -/
def GetOperation (st : Redis) (userID operationID : String) :
    Except Err OperationResult :=
  match kvGet st (opKey userID operationID) with
  | none => .error .operationNotFound
  | some op =>
    if op.userID ≠ userID then .error .unauthorizedAccess
    else .ok (toResult op)

/-- `MarkOperationAsRead` (`tracker.go` 211–256): `GET
operations:<user>:<op>`; missing is `ErrOperationNotFound`; set `read = true`
and `SET` the record back; then `XACK` on `notifications:<user>` — a failed
`XACK` happens after the `SET` and makes the call return
`ErrFailedToRemoveFromList`. No stream entry is ever appended. -/
def MarkOperationAsRead (st : Redis) (userID operationID : String)
    (setOk ackOk : Bool) : Redis × Option Err :=
  match kvGet st (opKey userID operationID) with
  | none => (st, some .operationNotFound)
  | some op =>
    let op' : Operation := { op with read := true }
    if setOk = false then (st, some .failedToUpdateRedis)
    else
      let st1 := kvSet st (opKey userID operationID) op'
      if ackOk = false then (st1, some .failedToRemoveFromList)
      else (st1, none)

/-- `GetUnreadNotifications` (`tracker.go` 258–284): `XRANGE
notifications:<user> - +` over the whole stream, then one `OperationResult`
per entry with `Read` hardcoded to `false`. `rangeOk` models the `XRANGE`
backend error branch. -/
def GetUnreadNotifications (st : Redis) (userID : String) (rangeOk : Bool) :
    Except Err (List OperationResult) :=
  if rangeOk = false then .error .failedToRetrieveOps
  else .ok ((streamGet st (notifKey userID)).map (fun op =>
    { key := op.key, message := op.status, timestamp := op.timestamp, read := false }))

/-- `GetOperationStatus` (`handlers.go` 23–45), tracker-call part: the
handler reads `operation_id` from the query and the user id from the
`X-User-ID` header and invokes `GetOperation(ctx, operationID, userID)` —
the query id is passed in `GetOperation`'s `userID` position and the header
id in its `operationID` position. -/
def GetOperationStatus (st : Redis) (operationID userID : String) :
    Except Err OperationResult :=
  GetOperation st operationID userID

/-- One `XREADGROUP ... COUNT 1` step of the websocket queue pump
(`websocket.go` 96–126) for the single consumer of a per-session group: the
group cursor selects the next not-yet-delivered entry of the stream, in
append order. -/
def XReadGroupNext (stream : List Operation) (cursor : Nat) :
    Option (Operation × Nat) :=
  match stream.get? cursor with
  | none => none
  | some op => some (op, cursor + 1)

/-- The sequence of entries a session observes after `k` iterations of the
queue-pump loop, starting from group cursor `cursor`. The pump forwards each
entry over an unbuffered channel to the single egress writer, so this list is
the egress order. -/
def readN (stream : List Operation) (cursor : Nat) : Nat → List Operation
  | 0 => []
  | k + 1 =>
    match XReadGroupNext stream cursor with
    | none => []
    | some (op, c') => op :: readN stream c' k

/-! ### Helper lemmas about the Redis model -/

@[simp]
theorem assocGet_nil {α : Type} (k : String) : assocGet (α := α) k [] = none := rfl

theorem assocGet_cons {α : Type} (k k' : String) (v : α) (l : List (String × α)) :
    assocGet k ((k', v) :: l) = if k' = k then some v else assocGet k l := rfl

@[simp]
theorem kvGet_kvSet_same (st : Redis) (k : String) (v : Operation) :
    kvGet (kvSet st k v) k = some v := by
  simp [kvGet, kvSet, assocGet_cons]

theorem kvGet_kvSet_other (st : Redis) (k k' : String) (v : Operation) (h : k ≠ k') :
    kvGet (kvSet st k v) k' = kvGet st k' := by
  simp [kvGet, kvSet, assocGet_cons, h]

@[simp]
theorem kvGet_streamAppend (st : Redis) (k : String) (op : Operation) (k' : String) :
    kvGet (streamAppend st k op) k' = kvGet st k' := rfl

@[simp]
theorem streamGet_kvSet (st : Redis) (k : String) (v : Operation) (k' : String) :
    streamGet (kvSet st k v) k' = streamGet st k' := rfl

@[simp]
theorem streamGet_streamAppend_same (st : Redis) (k : String) (op : Operation) :
    streamGet (streamAppend st k op) k = streamGet st k ++ [op] := by
  simp [streamGet, streamAppend, assocGet_cons]

theorem streamGet_streamAppend_other (st : Redis) (k : String) (op : Operation)
    (k' : String) (h : k ≠ k') :
    streamGet (streamAppend st k op) k' = streamGet st k' := by
  simp [streamGet, streamAppend, assocGet_cons, h]

/-! ### String lemmas about the Redis key format

The composite keys `operations:<user>:<op>` are plain string concatenations,
so distinctness of keys needs a little free-monoid reasoning. -/

/-- Splitting a character list at the first occurrence of a distinguished
character is unique: if the character occurs in neither prefix, equal
concatenations force equal parts. -/
theorem colon_split_unique :
    ∀ (a b l1 l2 : List Char), (':' ∈ a → False) → (':' ∈ b → False) →
      a ++ ':' :: l1 = b ++ ':' :: l2 → a = b ∧ l1 = l2 := by
  intro a
  induction a with
  | nil =>
    intro b l1 l2 _ hb h
    cases b with
    | nil => simpa using h
    | cons d bs =>
      simp only [List.nil_append, List.cons_append, List.cons.injEq] at h
      exact absurd (h.1 ▸ List.mem_cons_self d bs) (fun hm => hb hm)
  | cons c as ih =>
    intro b l1 l2 ha hb h
    cases b with
    | nil =>
      simp only [List.cons_append, List.nil_append, List.cons.injEq] at h
      exact absurd (h.1 ▸ List.mem_cons_self c as) (fun hm => ha hm)
    | cons d bs =>
      simp only [List.cons_append, List.cons.injEq] at h
      obtain ⟨hcd, htail⟩ := h
      have has : ':' ∈ as → False := fun hm => ha (List.mem_cons_of_mem _ hm)
      have hbs : ':' ∈ bs → False := fun hm => hb (List.mem_cons_of_mem _ hm)
      obtain ⟨h1, h2⟩ := ih bs l1 l2 has hbs htail
      exact ⟨by rw [hcd, h1], h2⟩

/-- The user-id component of an `operations:` key is recoverable: two keys
with the same operation id and equal text have the same user id. -/
theorem opKey_inj_userID {a b x : String} (h : opKey a x = opKey b x) : a = b := by
  have hd := congrArg String.data h
  simp only [opKey, String.data_append, List.append_assoc] at hd
  have h1 := List.append_cancel_left hd
  exact String.ext (List.append_cancel_right h1)

/-- Swapping the two id components of an `operations:` key changes the key,
provided the ids differ and neither contains a colon. -/
theorem opKey_swap_ne {a b : String} (hne : a ≠ b)
    (ha : ':' ∈ a.data → False) (hb : ':' ∈ b.data → False) :
    opKey a b ≠ opKey b a := by
  intro h
  have hd := congrArg String.data h
  have hcolon : (":" : String).data = [':'] := rfl
  simp only [opKey, String.data_append, List.append_assoc, hcolon,
    List.singleton_append] at hd
  have h1 := List.append_cancel_left hd
  obtain ⟨hab, _⟩ := colon_split_unique a.data b.data b.data a.data ha hb h1
  exact hne (String.ext hab)

/-! ### Claim C7: create-then-get -/

/-- C7: for every owner, if `create(owner)` succeeds and returns operation id
X, then `get(owner, X)` on the resulting state succeeds and returns a result
whose status message is `Pending`, whose `read` field is `false`, and whose
key equals X. -/
theorem create_then_get_pending (st : Redis) (userID operationID : String)
    (now : Nat) (setOk xaddOk : Bool) (oid : String)
    (h : (CreateOperation st userID operationID now setOk xaddOk).2 = .ok oid) :
    GetOperation (CreateOperation st userID operationID now setOk xaddOk).1 userID oid =
      .ok { key := oid, message := "Pending", timestamp := now, read := false } := by
  cases setOk with
  | false => simp [CreateOperation] at h
  | true =>
    cases xaddOk with
    | false => simp [CreateOperation] at h
    | true =>
      have hoid : operationID = oid := by simpa [CreateOperation] using h
      subst hoid
      simp [CreateOperation, GetOperation, toResult]

/-- Witness for C7 at a concrete owner, id and state. -/
theorem create_then_get_pending_witness :
    GetOperation (CreateOperation Redis.empty "u1" "op1" 0 true true).1 "u1" "op1" =
      .ok { key := "op1", message := "Pending", timestamp := 0, read := false } :=
  create_then_get_pending Redis.empty "u1" "op1" 0 true true "op1" rfl

/-! ### Claim C2: the update transition guard -/

/-- C2: for every update on an existing record, if the current status is
neither `Completed` nor `Failed` the call returns
`ErrInvalidOperationStatus` (the spec's `InvalidStatusTransition`) and the
whole state — record and queue — is unchanged; if the current status is
terminal, the guard admits the update: the call succeeds and the stored
record carries the new status, error and timestamp with `read` cleared. -/
theorem update_transition_guard (st : Redis) (cid newStatus errMsg : String)
    (now : Nat) (op : Operation)
    (hop : kvGet st (opKeyComposed cid) = some op) :
    ((op.status ≠ "Completed" ∧ op.status ≠ "Failed") →
        UpdateOperation st cid newStatus errMsg now true true =
          (st, some .invalidOperationStatus)) ∧
    ((op.status = "Completed" ∨ op.status = "Failed") →
        (UpdateOperation st cid newStatus errMsg now true true).2 = none ∧
        kvGet (UpdateOperation st cid newStatus errMsg now true true).1 (opKeyComposed cid) =
          some { op with status := newStatus, error := errMsg, timestamp := now, read := false }) := by
  constructor
  · intro hg
    simp [UpdateOperation, hop, hg]
  · intro hg
    have hg' : ¬(op.status ≠ "Completed" ∧ op.status ≠ "Failed") := by
      rcases hg with h | h <;> simp [h]
    simp [UpdateOperation, hop, hg']

/-- Witness for C2: the guard admits an update on a `Completed` record and
rejects one on a `Pending` record, at concrete states. -/
theorem update_transition_guard_witness :
    ((UpdateOperation (kvSet Redis.empty (opKeyComposed "u1:op1")
        { key := "op1", status := "Completed", timestamp := 0, userID := "u1",
          error := "", read := false })
      "u1:op1" "Failed" "boom" 1 true true).2 = none ∧
     kvGet (UpdateOperation (kvSet Redis.empty (opKeyComposed "u1:op1")
        { key := "op1", status := "Completed", timestamp := 0, userID := "u1",
          error := "", read := false })
      "u1:op1" "Failed" "boom" 1 true true).1 (opKeyComposed "u1:op1") =
       some { key := "op1", status := "Failed", timestamp := 1, userID := "u1",
              error := "boom", read := false }) ∧
    UpdateOperation (kvSet Redis.empty (opKeyComposed "u2:op2")
        { key := "op2", status := "Pending", timestamp := 0, userID := "u2",
          error := "", read := false })
      "u2:op2" "Completed" "" 1 true true =
      (kvSet Redis.empty (opKeyComposed "u2:op2")
        { key := "op2", status := "Pending", timestamp := 0, userID := "u2",
          error := "", read := false }, some .invalidOperationStatus) :=
  ⟨(update_transition_guard _ "u1:op1" "Failed" "boom" 1
      { key := "op1", status := "Completed", timestamp := 0, userID := "u1",
        error := "", read := false } (by simp)).2 (Or.inl rfl),
   (update_transition_guard _ "u2:op2" "Completed" "" 1
      { key := "op2", status := "Pending", timestamp := 0, userID := "u2",
        error := "", read := false } (by simp)).1 (by simp)⟩

/-! ### Claim C6: markRead idempotence -/

/-- C6: for every existing operation, calling `markRead` twice in succession
(with the backend available) leaves the stored record with `read = true`
after each call, and both calls — in particular the second — return no
error. -/
theorem markRead_idempotent (st : Redis) (u o : String) (op : Operation)
    (hop : kvGet st (opKey u o) = some op) :
    (MarkOperationAsRead st u o true true).2 = none ∧
    (kvGet (MarkOperationAsRead st u o true true).1 (opKey u o)).map Operation.read =
      some true ∧
    (MarkOperationAsRead (MarkOperationAsRead st u o true true).1 u o true true).2 = none ∧
    (kvGet (MarkOperationAsRead (MarkOperationAsRead st u o true true).1 u o true true).1
        (opKey u o)).map Operation.read = some true := by
  simp [MarkOperationAsRead, hop]

/-- Witness for C6 at a concrete state holding one `Pending` record. -/
theorem markRead_idempotent_witness :
    (MarkOperationAsRead (CreateOperation Redis.empty "u1" "op1" 0 true true).1
        "u1" "op1" true true).2 = none ∧
    (kvGet (MarkOperationAsRead (CreateOperation Redis.empty "u1" "op1" 0 true true).1
        "u1" "op1" true true).1 (opKey "u1" "op1")).map Operation.read = some true ∧
    (MarkOperationAsRead (MarkOperationAsRead
        (CreateOperation Redis.empty "u1" "op1" 0 true true).1 "u1" "op1" true true).1
        "u1" "op1" true true).2 = none ∧
    (kvGet (MarkOperationAsRead (MarkOperationAsRead
        (CreateOperation Redis.empty "u1" "op1" 0 true true).1 "u1" "op1" true true).1
        "u1" "op1" true true).1 (opKey "u1" "op1")).map Operation.read = some true :=
  markRead_idempotent (CreateOperation Redis.empty "u1" "op1" 0 true true).1
    "u1" "op1"
    { key := "op1", status := "Pending", timestamp := 0, userID := "u1",
      error := "", read := false } (by simp [CreateOperation])

/-! ### Claim C1: notification append counts -/

/-- C1 counterexample: a successful `markRead` call appends zero entries to
the owner's queue, refuting "no successful call appends zero entries". After
`create` the queue holds exactly one entry; `markRead` succeeds and leaves
the queue identical. -/
theorem markRead_appends_nothing_cex :
    (MarkOperationAsRead (CreateOperation Redis.empty "u1" "op1" 0 true true).1
        "u1" "op1" true true).2 = none ∧
    streamGet (MarkOperationAsRead (CreateOperation Redis.empty "u1" "op1" 0 true true).1
        "u1" "op1" true true).1 (notifKey "u1") =
      streamGet (CreateOperation Redis.empty "u1" "op1" 0 true true).1 (notifKey "u1") ∧
    (streamGet (CreateOperation Redis.empty "u1" "op1" 0 true true).1
        (notifKey "u1")).length = 1 := by
  refine ⟨rfl, rfl, rfl⟩

/-- C1 amended: every successful `create` or `update` appends exactly one
NotificationEntry (the fresh snapshot) to the owner's queue, while a
successful `markRead` appends none — it only acknowledges, leaving the
streams untouched. -/
theorem notification_append_counts (st : Redis) (u o cid newStatus errMsg : String)
    (now : Nat) (setOk xaddOk ackOk : Bool) :
    (∀ oid, (CreateOperation st u o now setOk xaddOk).2 = .ok oid →
      streamGet (CreateOperation st u o now setOk xaddOk).1 (notifKey u) =
        streamGet st (notifKey u) ++
          [{ key := o, status := "Pending", timestamp := now, userID := u,
             error := "", read := false }]) ∧
    (∀ op, kvGet st (opKeyComposed cid) = some op →
      (UpdateOperation st cid newStatus errMsg now setOk xaddOk).2 = none →
      streamGet (UpdateOperation st cid newStatus errMsg now setOk xaddOk).1
          (notifKey op.userID) =
        streamGet st (notifKey op.userID) ++
          [{ op with
              status := newStatus, error := errMsg, timestamp := now,
              read := false }]) ∧
    ((MarkOperationAsRead st u o setOk ackOk).2 = none →
      (MarkOperationAsRead st u o setOk ackOk).1.streams = st.streams) := by
  refine ⟨?_, ?_, ?_⟩
  · intro oid h
    cases setOk with
    | false => simp [CreateOperation] at h
    | true =>
      cases xaddOk with
      | false => simp [CreateOperation] at h
      | true => simp [CreateOperation]
  · intro op hop hsucc
    by_cases hg : op.status ≠ "Completed" ∧ op.status ≠ "Failed"
    · simp [UpdateOperation, hop, hg] at hsucc
    · cases setOk with
      | false => simp [UpdateOperation, hop, hg] at hsucc
      | true =>
        cases xaddOk with
        | false => simp [UpdateOperation, hop, hg] at hsucc
        | true => simp [UpdateOperation, hop, hg]
  · intro hsucc
    match hkv : kvGet st (opKey u o) with
    | none => simp [MarkOperationAsRead, hkv] at hsucc
    | some op =>
      cases setOk with
      | false => simp [MarkOperationAsRead, hkv] at hsucc
      | true =>
        cases ackOk with
        | false => simp [MarkOperationAsRead, hkv] at hsucc
        | true => simp [MarkOperationAsRead, hkv, kvSet]

/-- Witness for the amended C1: the create part and the markRead part at
concrete states. -/
theorem notification_append_counts_witness :
    streamGet (CreateOperation Redis.empty "u1" "op1" 0 true true).1 (notifKey "u1") =
      streamGet Redis.empty (notifKey "u1") ++
        [{ key := "op1", status := "Pending", timestamp := 0, userID := "u1",
           error := "", read := false }] ∧
    (MarkOperationAsRead (CreateOperation Redis.empty "u1" "op1" 0 true true).1
        "u1" "op1" true true).1.streams =
      (CreateOperation Redis.empty "u1" "op1" 0 true true).1.streams :=
  ⟨(notification_append_counts Redis.empty "u1" "op1" "c" "s" "e" 0 true true true).1
      "op1" rfl,
   (notification_append_counts (CreateOperation Redis.empty "u1" "op1" 0 true true).1
      "u1" "op1" "c" "s" "e" 0 true true true).2.2 rfl⟩

/-! ### Claim C5: markRead and acknowledgment failure -/

/-- C5 counterexample: with the record present (stored by `create`) and the
record write-back succeeding, a failed queue acknowledgment makes `markRead`
return `ErrFailedToRemoveFromList` — the call does not return success. -/
theorem markRead_ack_failure_cex :
    (MarkOperationAsRead (CreateOperation Redis.empty "u1" "op1" 0 true true).1
        "u1" "op1" true false).2 = some .failedToRemoveFromList := by
  rfl

/-- C5 amended: for every `markRead` call where the record exists and the
write-back succeeds, a failure of the queue acknowledgment makes the call
return `ErrFailedToRemoveFromList`; the record is nevertheless persisted
with `read = true`. -/
theorem markRead_ack_failure (st : Redis) (u o : String) (op : Operation)
    (hop : kvGet st (opKey u o) = some op) :
    (MarkOperationAsRead st u o true false).2 = some .failedToRemoveFromList ∧
    (kvGet (MarkOperationAsRead st u o true false).1 (opKey u o)).map Operation.read =
      some true := by
  simp [MarkOperationAsRead, hop]

/-- Witness for the amended C5 at a concrete state. -/
theorem markRead_ack_failure_witness :
    (MarkOperationAsRead (CreateOperation Redis.empty "u1" "op1" 0 true true).1
        "u1" "op1" true false).2 = some .failedToRemoveFromList ∧
    (kvGet (MarkOperationAsRead (CreateOperation Redis.empty "u1" "op1" 0 true true).1
        "u1" "op1" true false).1 (opKey "u1" "op1")).map Operation.read = some true :=
  markRead_ack_failure (CreateOperation Redis.empty "u1" "op1" 0 true true).1
    "u1" "op1"
    { key := "op1", status := "Pending", timestamp := 0, userID := "u1",
      error := "", read := false } (by simp [CreateOperation])

/-! ### Claim C4: monotonicity of the read flag -/

/-- C4 counterexample: `update` is not read-monotonic. On a record stored
with status `Completed` and `read = true`, a successful `update` writes the
record back with `read = false` — the flag reverts from `true` to `false`. -/
theorem update_clears_read_cex :
    (kvGet (kvSet Redis.empty (opKey "u1" "op1")
        { key := "op1", status := "Completed", timestamp := 0, userID := "u1",
          error := "", read := true }) (opKey "u1" "op1")).map Operation.read =
      some true ∧
    (UpdateOperation (kvSet Redis.empty (opKey "u1" "op1")
        { key := "op1", status := "Completed", timestamp := 0, userID := "u1",
          error := "", read := true })
      "u1:op1" "Failed" "boom" 1 true true).2 = none ∧
    (kvGet (UpdateOperation (kvSet Redis.empty (opKey "u1" "op1")
        { key := "op1", status := "Completed", timestamp := 0, userID := "u1",
          error := "", read := true })
      "u1:op1" "Failed" "boom" 1 true true).1 (opKey "u1" "op1")).map Operation.read =
      some false := by
  refine ⟨rfl, rfl, rfl⟩

/-- C4 amended: the stored read flag is monotonic under `create` (for a
fresh operation id, as the uuid-generated ids are) and under `markRead`;
`update`, whenever it succeeds, clears the written record's `read` flag to
`false`. -/
theorem read_flag_monotonicity (st : Redis) (u o cid newStatus errMsg k : String)
    (now : Nat) (setOk xaddOk ackOk : Bool) :
    (kvGet st (opKey u o) = none →
      ∀ op, kvGet st k = some op → op.read = true →
        kvGet (CreateOperation st u o now setOk xaddOk).1 k = some op) ∧
    (∀ op op', kvGet st k = some op → op.read = true →
        kvGet (MarkOperationAsRead st u o setOk ackOk).1 k = some op' →
        op'.read = true) ∧
    ((UpdateOperation st cid newStatus errMsg now setOk xaddOk).2 = none →
      ∃ op', kvGet (UpdateOperation st cid newStatus errMsg now setOk xaddOk).1
          (opKeyComposed cid) = some op' ∧ op'.read = false) := by
  refine ⟨?_, ?_, ?_⟩
  · intro hfresh op hk _
    have hken : k ≠ opKey u o := by
      intro he
      rw [he, hfresh] at hk
      exact Option.noConfusion hk
    cases setOk with
    | false => simpa [CreateOperation] using hk
    | true =>
      cases xaddOk with
      | false =>
        simpa [CreateOperation, kvGet_kvSet_other _ _ _ _ (Ne.symm hken)] using hk
      | true =>
        simpa [CreateOperation, kvGet_kvSet_other _ _ _ _ (Ne.symm hken)] using hk
  · intro op op' hk hread hk'
    match hkv : kvGet st (opKey u o) with
    | none =>
      simp only [MarkOperationAsRead, hkv] at hk'
      rw [hk] at hk'
      exact (Option.some.inj hk') ▸ hread
    | some opr =>
      cases setOk with
      | false =>
        simp only [MarkOperationAsRead, hkv, Bool.false_eq_true, if_pos] at hk'
        rw [hk] at hk'
        exact (Option.some.inj hk') ▸ hread
      | true =>
        have hk1 : kvGet (kvSet st (opKey u o) { opr with read := true }) k = some op' := by
          cases ackOk with
          | false => simpa [MarkOperationAsRead, hkv] using hk'
          | true => simpa [MarkOperationAsRead, hkv] using hk'
        by_cases hke : opKey u o = k
        · rw [← hke, kvGet_kvSet_same] at hk1
          exact (Option.some.inj hk1) ▸ rfl
        · rw [kvGet_kvSet_other _ _ _ _ hke, hk] at hk1
          exact (Option.some.inj hk1) ▸ hread
  · intro hsucc
    match hkv : kvGet st (opKeyComposed cid) with
    | none => simp [UpdateOperation, hkv] at hsucc
    | some op =>
      by_cases hg : op.status ≠ "Completed" ∧ op.status ≠ "Failed"
      · simp [UpdateOperation, hkv, hg] at hsucc
      · cases setOk with
        | false => simp [UpdateOperation, hkv, hg] at hsucc
        | true =>
          cases xaddOk with
          | false => simp [UpdateOperation, hkv, hg] at hsucc
          | true =>
            refine ⟨{ op with
                       status := newStatus, error := errMsg,
                       timestamp := now, read := false }, ?_, rfl⟩
            simp [UpdateOperation, hkv, hg]

/-- Witness for the amended C4: monotonicity of `markRead` and the clearing
behavior of `update`, at concrete states. -/
theorem read_flag_monotonicity_witness :
    (∃ op', kvGet (UpdateOperation (kvSet Redis.empty (opKey "u1" "op1")
        { key := "op1", status := "Completed", timestamp := 0, userID := "u1",
          error := "", read := true })
      "u1:op1" "Failed" "boom" 1 true true).1 (opKeyComposed "u1:op1") = some op' ∧
      op'.read = false) ∧
    kvGet (CreateOperation (kvSet Redis.empty (opKey "u1" "op1")
        { key := "op1", status := "Pending", timestamp := 0, userID := "u1",
          error := "", read := true }) "u1" "op2" 3 true true).1 (opKey "u1" "op1") =
      some { key := "op1", status := "Pending", timestamp := 0, userID := "u1",
             error := "", read := true } :=
  ⟨(read_flag_monotonicity (kvSet Redis.empty (opKey "u1" "op1")
      { key := "op1", status := "Completed", timestamp := 0, userID := "u1",
        error := "", read := true })
      "u1" "op1" "u1:op1" "Failed" "boom" (opKey "u1" "op1") 1 true true true).2.2 rfl,
   (read_flag_monotonicity (kvSet Redis.empty (opKey "u1" "op1")
      { key := "op1", status := "Pending", timestamp := 0, userID := "u1",
        error := "", read := true })
      "u1" "op2" "c" "s" "e" (opKey "u1" "op1") 3 true true true).1 (by decide)
      { key := "op1", status := "Pending", timestamp := 0, userID := "u1",
        error := "", read := true } (by simp) rfl⟩

/-! ### Claim C3: cross-owner get -/

/-- C3 counterexample: the record created by owner `alice` with id `op1`
exists, yet `get("bob", "op1")` returns `ErrOperationNotFound`, not
`ErrUnauthorizedAccess` — the lookup key is scoped to the caller's owner, so
the cross-owner read misses the record entirely. -/
theorem get_cross_owner_cex :
    kvGet (CreateOperation Redis.empty "alice" "op1" 0 true true).1
        (opKey "alice" "op1") =
      some { key := "op1", status := "Pending", timestamp := 0, userID := "alice",
             error := "", read := false } ∧
    GetOperation (CreateOperation Redis.empty "alice" "op1" 0 true true).1
        "bob" "op1" = .error .operationNotFound := by
  refine ⟨rfl, rfl⟩

/-- C3 amended: for every record created under owner A with id X, calling
`get` as a different owner B (with no record of its own under id X) returns
`ErrOperationNotFound` — not `ErrUnauthorizedAccess` — even though the
record for X exists, because the lookup key `operations:B:X` differs from
the stored key `operations:A:X`. -/
theorem get_cross_owner_notFound (st : Redis) (a b x : String) (now : Nat)
    (hne : b ≠ a) (hfresh : kvGet st (opKey b x) = none) :
    GetOperation (CreateOperation st a x now true true).1 b x =
      .error .operationNotFound := by
  have hkne : opKey a x ≠ opKey b x := fun h => hne (opKey_inj_userID h).symm
  simp [CreateOperation, GetOperation, kvGet_kvSet_other _ _ _ _ hkne, hfresh]

/-- Witness for the amended C3 at concrete owners. -/
theorem get_cross_owner_notFound_witness :
    GetOperation (CreateOperation Redis.empty "alice" "op1" 0 true true).1
        "bob" "op1" = .error .operationNotFound :=
  get_cross_owner_notFound Redis.empty "alice" "bob" "op1" 0 (by decide) rfl

/-! ### Claim C8: the transposed handler arguments -/

/-- C8: `GetOperationStatus` passes the query's `operation_id` in
`GetOperation`'s `userID` position and the `X-User-ID` header in its
`operationID` position, so the lookup key is `operations:<op>:<user>`. For a
request whose operation id differs from its user id (ids contain no colon,
as the uuid operation ids and user ids do not), that key never matches the
key `operations:<user>:<op>` under which `create` stored the record, and the
endpoint returns `ErrOperationNotFound` for the very operation `create`
stored. -/
theorem handler_transposed_notFound (u o : String) (now : Nat) (hne : o ≠ u)
    (ho : ':' ∈ o.data → False) (hu : ':' ∈ u.data → False) :
    GetOperationStatus (CreateOperation Redis.empty u o now true true).1 o u =
      .error .operationNotFound := by
  have hkne : opKey u o ≠ opKey o u := Ne.symm (opKey_swap_ne hne ho hu)
  simp [GetOperationStatus, GetOperation, CreateOperation,
    kvGet, Redis.empty, assocGet, hkne]

/-- Witness for C8 at a concrete user id and operation id. -/
theorem handler_transposed_notFound_witness :
    GetOperationStatus (CreateOperation Redis.empty "u1" "op1" 0 true true).1
        "op1" "u1" = .error .operationNotFound :=
  handler_transposed_notFound "u1" "op1" 0 (by decide) (by decide) (by decide)

/-! ### Claim C9: per-owner FIFO delivery -/

/-- Helper for C9: the entry observed at position `i` of the queue-pump read
sequence is exactly the entry at stream position `cursor + i`. -/
theorem readN_getElem? (stream : List Operation) :
    ∀ (k c i : Nat) (op : Operation),
      (readN stream c k)[i]? = some op → stream[c + i]? = some op := by
  intro k
  induction k with
  | zero =>
    intro c i op h
    simp [readN] at h
  | succ k ih =>
    intro c i op h
    rw [readN] at h
    match hs : stream[c]? with
    | none =>
      rw [XReadGroupNext, List.get?_eq_getElem?, hs] at h
      simp at h
    | some op0 =>
      rw [XReadGroupNext, List.get?_eq_getElem?, hs] at h
      cases i with
      | zero => simpa [hs] using h
      | succ i =>
        simp only [List.getElem?_cons_succ] at h
        have hr := ih (c + 1) i op h
        rw [show c + (i + 1) = c + 1 + i by omega]
        exact hr

/-- C9: within one owner's queue, the consumer-group reads of a session
observe entries in exactly the order they were appended: if the session
observes `e1` at an earlier position of its read sequence than `e2`, then
`e1` sits at a strictly earlier append position of the stream than `e2`. -/
theorem stream_fifo_order (stream : List Operation) (c k i j : Nat)
    (e1 e2 : Operation) (hij : i < j)
    (h1 : (readN stream c k)[i]? = some e1)
    (h2 : (readN stream c k)[j]? = some e2) :
    stream[c + i]? = some e1 ∧ stream[c + j]? = some e2 ∧ c + i < c + j :=
  ⟨readN_getElem? stream k c i e1 h1, readN_getElem? stream k c j e2 h2,
   Nat.add_lt_add_left hij c⟩

/-- Witness for C9 on a concrete two-entry stream. -/
theorem stream_fifo_order_witness :
    ([{ key := "a", status := "Pending", timestamp := 0, userID := "u1",
        error := "", read := false },
      { key := "b", status := "Completed", timestamp := 1, userID := "u1",
        error := "", read := false }] : List Operation)[0 + 0]? =
      some { key := "a", status := "Pending", timestamp := 0, userID := "u1",
             error := "", read := false } ∧
    ([{ key := "a", status := "Pending", timestamp := 0, userID := "u1",
        error := "", read := false },
      { key := "b", status := "Completed", timestamp := 1, userID := "u1",
        error := "", read := false }] : List Operation)[0 + 1]? =
      some { key := "b", status := "Completed", timestamp := 1, userID := "u1",
             error := "", read := false } ∧
    0 + 0 < 0 + 1 :=
  stream_fifo_order
    [{ key := "a", status := "Pending", timestamp := 0, userID := "u1",
       error := "", read := false },
     { key := "b", status := "Completed", timestamp := 1, userID := "u1",
       error := "", read := false }] 0 2 0 1 _ _ (by decide) rfl rfl

/-! ### Claim C10: the unread-notifications listing -/

/-- C10: `GetUnreadNotifications` scans the whole log from the beginning and
returns one `OperationResult` per log entry, with `read` hardcoded to
`false`: every returned result carries `read = false` regardless of the
stored snapshot, the result count equals the full log length, and every
snapshot — including those with `read = true` and duplicated operation ids —
contributes its projection to the output. -/
theorem unread_listing_hardcoded (st : Redis) (u : String) :
    ∃ l, GetUnreadNotifications st u true = .ok l ∧
      (∀ r ∈ l, r.read = false) ∧
      l.length = (streamGet st (notifKey u)).length ∧
      (∀ op ∈ streamGet st (notifKey u),
        ({ key := op.key, message := op.status, timestamp := op.timestamp,
           read := false } : OperationResult) ∈ l) := by
  refine ⟨_, rfl, ?_, ?_, ?_⟩
  · intro r hr
    simp only [GetUnreadNotifications, Bool.true_eq_false, if_neg, List.mem_map] at hr
    obtain ⟨op, _, hre⟩ := hr
    rw [← hre]
  · simp [GetUnreadNotifications]
  · intro op hop
    simp only [GetUnreadNotifications, List.mem_map]
    exact ⟨op, hop, rfl⟩

/-- Witness for C10 on a stream holding one already-read snapshot. -/
theorem unread_listing_hardcoded_witness :
    ∃ l, GetUnreadNotifications (streamAppend Redis.empty (notifKey "u1")
        { key := "op1", status := "Completed", timestamp := 0, userID := "u1",
          error := "", read := true }) "u1" true = .ok l ∧
      (∀ r ∈ l, r.read = false) ∧
      l.length = (streamGet (streamAppend Redis.empty (notifKey "u1")
        { key := "op1", status := "Completed", timestamp := 0, userID := "u1",
          error := "", read := true }) (notifKey "u1")).length ∧
      (∀ op ∈ streamGet (streamAppend Redis.empty (notifKey "u1")
        { key := "op1", status := "Completed", timestamp := 0, userID := "u1",
          error := "", read := true }) (notifKey "u1"),
        ({ key := op.key, message := op.status, timestamp := op.timestamp,
           read := false } : OperationResult) ∈ l) :=
  unread_listing_hardcoded (streamAppend Redis.empty (notifKey "u1")
    { key := "op1", status := "Completed", timestamp := 0, userID := "u1",
      error := "", read := true }) "u1"

end OpTracker
